import Mathlib

/-!
Shallow embedding of `src/Modal.svelte` (the single source file of
`svelte-simple-modal`) and proofs about its behaviour.

The component's `<script>` block is a collection of mutable variables
(`Component`, `state`, `loading`, `scrollY`, `prevBodyPosition`,
`prevBodyOverflow`, `prevBodyWidth`, `outerClickTarget`) together with
handlers (`openModal`, `closeModal`, `changeModalContent`, `isLoading`,
`handleKeydown`, `handleOuterMousedown`, `handleOuterMouseup`,
`disableScroll`, `enableScroll`) that mutate them and the document body's
style.  We embed this as a `World` record and model every handler as a
function `World → World` (with extra inputs for the event data and the
DOM queries the handler performs, and `Except` where the JS code can
throw).

JS objects that are merged by spread (`defaultState`, `options`, the
`props` merging in `bind`) are embedded as ordered own-property lists
(`Obj`) with last-binding-wins lookup, which matches the lookup
semantics of `{ ...a, ...b }`.
-/

/-- JavaScript runtime values, as far as the modal component stores them:
strings, numbers, booleans, `null`, `undefined`, function/component
references (kept opaque, identified by name), and nested object literals. -/
inductive JsVal where
  | str (s : String)
  | num (n : Int)
  | bool (b : Bool)
  | null
  | undef
  | func (name : String)
  | obj (fields : List (String × JsVal))

/-- A JavaScript object, modelled as its ordered own-property list.  A later
entry for the same key shadows an earlier one, as with JS property
assignment and object spread. -/
abbrev Obj := List (String × JsVal)

/-- Property lookup on an `Obj`: the last binding of the key wins
(matching JS semantics where later writes overwrite earlier ones). -/
def getProp : Obj → String → Option JsVal
  | [], _ => none
  | (k, v) :: rest, key =>
    match getProp rest key with
    | some w => some w
    | none => if k = key then some v else none

/-- JS object spread `{ ...a, ...b }`: all properties of `a` then all
properties of `b`; under `getProp`'s last-binding-wins lookup, keys of `b`
override keys of `a`. -/
def spread (a b : Obj) : Obj := a ++ b

/-- Left-biased choice on optional values (JS: `x` if present, else `y`). -/
def orProp (x y : Option JsVal) : Option JsVal :=
  match x with
  | some v => some v
  | none => y

theorem getProp_spread (a b : Obj) (k : String) :
    getProp (spread a b) k = orProp (getProp b k) (getProp a k) := by
  induction a with
  | nil =>
    cases h : getProp b k <;> simp [spread, getProp, orProp, h]
  | cons hd tl ih =>
    obtain ⟨k1, v1⟩ := hd
    simp only [spread, List.cons_append] at *
    show (match getProp (tl ++ b) k with
      | some w => some w
      | none => if k1 = k then some v1 else none) = _
    rw [ih]
    cases h : getProp b k with
    | some w => simp [orProp]
    | none =>
      simp only [orProp]
      rfl

theorem getProp_spread_single (a : Obj) (k : String) (v : JsVal) :
    getProp (spread a [(k, v)]) k = some v := by
  rw [getProp_spread]
  simp [getProp, orProp]

/-- The component's exported props that feed `defaultState`, with the
default initializer values from the source (`export let …` declarations).
`transitionWindow` / `transitionWindowProps` default to the background's
transition and parameters. -/
structure HostProps where
  ariaLabel : JsVal := .null
  ariaLabelledBy : JsVal := .null
  closeButton : JsVal := .bool true
  closeOnEsc : JsVal := .bool true
  closeOnOuterClick : JsVal := .bool true
  styleBg : JsVal := .obj []
  styleWindowWrap : JsVal := .obj []
  styleWindow : JsVal := .obj []
  styleContent : JsVal := .obj []
  styleCloseButton : JsVal := .obj []
  classBg : JsVal := .null
  classWindowWrap : JsVal := .null
  classWindow : JsVal := .null
  classContent : JsVal := .null
  classCloseButton : JsVal := .null
  transitionBg : JsVal := .func "fade"
  transitionBgProps : JsVal := .obj [("duration", .num 250)]
  transitionWindow : JsVal := .func "fade"
  transitionWindowProps : JsVal := .obj [("duration", .num 250)]
  disableFocusTrap : JsVal := .bool false
  unstyled : JsVal := .bool false

/-- The `defaultState` object literal (source lines 176-198): one entry per
configuration key, holding the component's prop value, in source order. -/
def defaultState (p : HostProps) : Obj :=
  [ ("ariaLabel", p.ariaLabel)
  , ("ariaLabelledBy", p.ariaLabelledBy)
  , ("closeButton", p.closeButton)
  , ("closeOnEsc", p.closeOnEsc)
  , ("closeOnOuterClick", p.closeOnOuterClick)
  , ("styleBg", p.styleBg)
  , ("styleWindowWrap", p.styleWindowWrap)
  , ("styleWindow", p.styleWindow)
  , ("styleContent", p.styleContent)
  , ("styleCloseButton", p.styleCloseButton)
  , ("classBg", p.classBg)
  , ("classWindowWrap", p.classWindowWrap)
  , ("classWindow", p.classWindow)
  , ("classContent", p.classContent)
  , ("classCloseButton", p.classCloseButton)
  , ("transitionBg", p.transitionBg)
  , ("transitionBgProps", p.transitionBgProps)
  , ("transitionWindow", p.transitionWindow)
  , ("transitionWindowProps", p.transitionWindowProps)
  , ("disableFocusTrap", p.disableFocusTrap)
  , ("unstyled", p.unstyled)
  ]

/-- `state = { ...defaultState, ...options }` — the session configuration
computed by `openModal` and `changeModalContent`. -/
def mergeState (p : HostProps) (options : Obj) : Obj :=
  spread (defaultState p) options

/-- The result of `new Component(arg)`: which component class was
instantiated and the constructor argument object. -/
structure Instance where
  comp : Nat
  args : Obj

/-- Spreading an optional JS value into an object literal: `{ ...undefined }`
and `{ ...null }` contribute no properties; spreading an object contributes
its properties.  (The component only ever spreads objects or `undefined`
here: `options.props` is either absent or a props object.) -/
def asSpreadObj : Option JsVal → Obj
  | some (.obj o) => o
  | _ => []

/-- The exported `bind(Component, props = {})` helper (source lines 6-16):
returns a closure that instantiates `Component` with
`{ ...options, props: { ...props, ...options.props } }`.  We model the
closure applied to its `options` argument. -/
def bind (Component : Nat) (props : Obj := []) : Obj → Instance :=
  fun options =>
    { comp := Component
    , args := spread options
        [("props", .obj (spread props (asSpreadObj (getProp options "props"))))] }

/-- The props object a `bind`-produced component hands to the underlying
component class. -/
def instanceProps (inst : Instance) : Obj :=
  asSpreadObj (getProp inst.args "props")

/-- The fields of the `state` configuration object that the embedded
handlers read (`state.closeOnEsc`, `state.closeOnOuterClick`,
`state.disableFocusTrap`).  The full object-level merge
`{ ...defaultState, ...options }` is modelled by `mergeState`; here the
same merge is modelled field-wise on this projection. -/
structure Cfg where
  closeOnEsc : Bool
  closeOnOuterClick : Bool
  disableFocusTrap : Bool
deriving Repr, DecidableEq

/-- The documented defaults of the three handler-relevant configuration
flags (`closeOnEsc = true`, `closeOnOuterClick = true`,
`disableFocusTrap = false`). -/
def defaultCfg : Cfg :=
  { closeOnEsc := true, closeOnOuterClick := true, disableFocusTrap := false }

/-- Caller-supplied configuration overrides (the `options` argument of
`openModal` / `changeModalContent`), projected to the handler-relevant
fields; `none` means the key was not supplied. -/
structure CfgOpts where
  closeOnEsc : Option Bool := none
  closeOnOuterClick : Option Bool := none
  disableFocusTrap : Option Bool := none
deriving Repr, DecidableEq

/-- Field-wise form of `{ ...defaultState, ...options }` on the projected
configuration: a supplied key overrides the default, an absent key keeps it. -/
def mergeCfg (dflt : Cfg) (opts : CfgOpts) : Cfg :=
  { closeOnEsc := opts.closeOnEsc.getD dflt.closeOnEsc
  , closeOnOuterClick := opts.closeOnOuterClick.getD dflt.closeOnOuterClick
  , disableFocusTrap := opts.disableFocusTrap.getD dflt.disableFocusTrap }

/-- DOM element references as the handlers compare them: the bound
`background` div, the bound `wrap` div, or any other node (identified by a
numeric id; this covers content-region nodes and focusable descendants of
the modal window). -/
inductive Elem where
  | background
  | wrap
  | node (id : Nat)
deriving Repr, DecidableEq

/-- The component's mutable variables together with the parts of the
document/window environment the code reads and writes.

Component state (the `let` variables of the script):
`Component` (`none` when closed; otherwise the data of the
`bind(NewComponent, newProps)` closure), `state` (projected to `Cfg`),
`loading`, the saved scroll snapshot `scrollY` / `prevBodyPosition` /
`prevBodyOverflow` / `prevBodyWidth` (`none` models `undefined`, i.e.
never assigned), and `outerClickTarget`.

Environment: the body's inline `position` / `top` / `overflow` / `width`
style values and the window's current vertical scroll offset.
(The callback variables `onOpen` / `onClose` / `onOpened` / `onClosed`
and the css strings of `updateStyleTransition` are not modelled; no claim
depends on them.) -/
structure World where
  Component : Option (Nat × Obj)
  state : Cfg
  loading : Bool
  scrollY : Option Nat
  prevBodyPosition : Option String
  prevBodyOverflow : Option String
  prevBodyWidth : Option String
  outerClickTarget : Option Elem
  bodyPosition : String
  bodyTop : String
  bodyOverflow : String
  bodyWidth : String
  windowScrollY : Nat

/-- `disableScroll` (source lines 364-373): record `window.scrollY` and the
body's current `position` / `overflow` / `width`, then set
`position: fixed`, `top: -<scrollY>px`, `overflow: hidden`, `width: 100%`.
It is called unconditionally on every `openModal`. -/
def disableScroll (w : World) : World :=
  { w with
    scrollY := some w.windowScrollY
  , prevBodyPosition := some w.bodyPosition
  , prevBodyOverflow := some w.bodyOverflow
  , prevBodyWidth := some w.bodyWidth
  , bodyPosition := "fixed"
  , bodyTop := "-" ++ toString w.windowScrollY ++ "px"
  , bodyOverflow := "hidden"
  , bodyWidth := "100%" }

/-- JS `x || ''` on a possibly-undefined string: `undefined` and the empty
string give `''`, every other string gives itself. -/
def jsOrEmpty : Option String → String
  | none => ""
  | some s => if s = "" then "" else s

theorem jsOrEmpty_some (s : String) : jsOrEmpty (some s) = s := by
  unfold jsOrEmpty
  split <;> simp_all

/-- `enableScroll` (source lines 375-381): restore the three recorded body
style values (with `|| ''` fallback), clear `top`, and
`window.scrollTo(0, scrollY)`.  (`scrollY` is still `undefined` only if no
`openModal` ever ran; `getD 0` models the 0 that `scrollTo` coerces
`undefined` to.) -/
def enableScroll (w : World) : World :=
  { w with
    bodyPosition := jsOrEmpty w.prevBodyPosition
  , bodyTop := ""
  , bodyOverflow := jsOrEmpty w.prevBodyOverflow
  , bodyWidth := jsOrEmpty w.prevBodyWidth
  , windowScrollY := w.scrollY.getD 0 }

/-- `openModal(NewComponent, newProps = {}, options = {}, callback = {})`
(source lines 264-313): bind the content, merge the configuration over
`defaultState`, then call `disableScroll()` — unconditionally, even when a
modal is already open.  `dflt` is the component's `defaultState` projected
to the handler-relevant fields.  The callback wiring is not modelled. -/
def openModal (dflt : Cfg) (NewComponent : Nat) (newProps : Obj := [])
    (options : CfgOpts := {}) (w : World) : World :=
  disableScroll
    { w with
      Component := some (NewComponent, newProps)
    , state := mergeCfg dflt options }

/-- `closeModal(callback = {})` (source lines 315-321): return immediately
if `Component` is null; otherwise clear `Component` and call
`enableScroll()`.  (The one-shot callback overrides are not modelled.) -/
def closeModal (w : World) : World :=
  if w.Component.isSome then enableScroll { w with Component := none } else w

/-- `changeModalContent(NewComponent, newProps = {}, options = {})`
(source lines 258-262): bind the content and merge the configuration —
with no guard on whether a session exists, and without touching the
scroll lock. -/
def changeModalContent (dflt : Cfg) (NewComponent : Nat) (newProps : Obj := [])
    (options : CfgOpts := {}) (w : World) : World :=
  { w with
    Component := some (NewComponent, newProps)
  , state := mergeCfg dflt options }

/-- `isLoading(value = true)` (source lines 323-325): set the `loading`
flag, unconditionally. -/
def isLoading (w : World) (value : Bool := true) : World :=
  { w with loading := value }

/-- `handleOuterMousedown` (source lines 349-355): when outside-click
dismissal is enabled and the event target is exactly the background or the
wrapper element, remember the target. -/
def handleOuterMousedown (w : World) (target : Elem) : World :=
  if w.state.closeOnOuterClick ∧ (target = Elem.background ∨ target = Elem.wrap)
  then { w with outerClickTarget := some target }
  else w

/-- Result of a mouseup: the new world and whether `preventDefault` ran. -/
structure UpResult where
  world : World
  prevented : Bool

/-- `handleOuterMouseup` (source lines 357-362): when outside-click
dismissal is enabled and the event target equals the remembered
`outerClickTarget`, prevent default and close.  Note: `outerClickTarget`
is never cleared. -/
def handleOuterMouseup (w : World) (target : Elem) : UpResult :=
  if w.state.closeOnOuterClick ∧ some target = w.outerClickTarget
  then { world := closeModal w, prevented := true }
  else { world := w, prevented := false }

/-- JS `Array.prototype.indexOf`: index of the first occurrence, `-1` when
absent. -/
def jsIndexOf (l : List Elem) (x : Elem) : Int :=
  match l with
  | [] => -1
  | a :: rest =>
    if a = x then 0
    else
      let r := jsIndexOf rest x
      if r = -1 then -1 else r + 1

/-- JS `%` (truncated remainder, sign of the dividend); `a % 0` is `NaN`,
modelled as `none`. -/
def jsMod (a b : Int) : Option Int :=
  if b = 0 then none else some (Int.tmod a b)

/-- JS array indexing `l[i]`: `undefined` (`none`) for `NaN` or
out-of-range indices. -/
def jsGet (l : List Elem) (i : Option Int) : Option Elem :=
  match i with
  | none => none
  | some i =>
    if h : 0 ≤ i ∧ i.toNat < l.length then some (l.get ⟨i.toNat, h.2⟩)
    else none

/-- The focusable set: the modal window's descendant nodes filtered to
those with a non-negative `tabIndex`, in document order
(`Array.from(modalWindow.querySelectorAll('*')).filter(node => node.tabIndex >= 0)`). -/
def tabbableOf (nodes : List (Elem × Int)) : List Elem :=
  (nodes.filter fun n => 0 ≤ n.2).map Prod.fst

/-- A keyboard event: its `key` string and `shiftKey` flag. -/
structure KeyEvent where
  key : String
  shiftKey : Bool

/-- The DOM data `handleKeydown` queries: the modal window's descendants
with their `tabIndex`, and `document.activeElement`. -/
structure DomView where
  nodes : List (Elem × Int)
  activeElement : Elem

/-- Result of a keydown: the new world, which element (if any) received
focus, and whether `preventDefault` ran. -/
structure KeyResult where
  world : World
  focused : Option Elem
  prevented : Bool

/-- `handleKeydown` (source lines 327-347).  Escape branch: when
`state.closeOnEsc` and a session is active, prevent default and close.
Tab branch: when a session is active and the focus trap is not disabled,
compute the focusable set, take `indexOf(document.activeElement)` (set to
0 when `-1` and Shift is held), advance by `length + (shift ? -1 : 1)`,
reduce `% length`, and focus `tabbable[index]`.  When the focusable set is
empty the JS computes `index % 0 = NaN` and `tabbable[NaN]` is
`undefined`, so `undefined.focus()` throws a TypeError — modelled as
`Except.error ()`. -/
def handleKeydown (w : World) (ev : KeyEvent) (dom : DomView) :
    Except Unit KeyResult :=
  let escHit := w.state.closeOnEsc ∧ w.Component.isSome ∧ ev.key = "Escape"
  let w1 := if escHit then closeModal w else w
  let prev1 := if escHit then true else false
  if w1.Component.isSome ∧ ev.key = "Tab" ∧ ¬ w1.state.disableFocusTrap then
    let tabbable := tabbableOf dom.nodes
    let index0 : Int := jsIndexOf tabbable dom.activeElement
    let index1 : Int := if index0 = -1 ∧ ev.shiftKey then 0 else index0
    let index2 : Int :=
      index1 + tabbable.length + (if ev.shiftKey then -1 else 1)
    match jsGet tabbable (jsMod index2 tabbable.length) with
    | none => Except.error ()
    | some el =>
      Except.ok { world := w1, focused := some el, prevented := true }
  else
    Except.ok { world := w1, focused := none, prevented := prev1 }

/-- A freshly initialised, closed world: no session, the documented default
configuration, no snapshot recorded yet, empty inline body styles, and the
page scrolled to vertical offset 5. -/
def initialWorld : World :=
  { Component := none
  , state := defaultCfg
  , loading := false
  , scrollY := none
  , prevBodyPosition := none
  , prevBodyOverflow := none
  , prevBodyWidth := none
  , outerClickTarget := none
  , bodyPosition := ""
  , bodyTop := ""
  , bodyOverflow := ""
  , bodyWidth := ""
  , windowScrollY := 5 }

/-- `initialWorld` after `openModal(ContentX)` with no overrides. -/
def openWorld : World := openModal defaultCfg 1 [] {} initialWorld

theorem closeModal_Component (w : World) : (closeModal w).Component = none := by
  unfold closeModal
  cases h : w.Component <;> simp [h, enableScroll]

/-- Claim C4: engaging the scroll lock and then disengaging it restores the
body's `position`, `overflow` and `width` style properties and the vertical
scroll offset exactly to their pre-engage values (whatever they were), and
clears the `top` override. -/
theorem scrollLock_roundtrip (w : World) :
    (enableScroll (disableScroll w)).bodyPosition = w.bodyPosition ∧
    (enableScroll (disableScroll w)).bodyOverflow = w.bodyOverflow ∧
    (enableScroll (disableScroll w)).bodyWidth = w.bodyWidth ∧
    (enableScroll (disableScroll w)).windowScrollY = w.windowScrollY ∧
    (enableScroll (disableScroll w)).bodyTop = "" := by
  simp [enableScroll, disableScroll, jsOrEmpty_some]

/-- Claim C1 fails on the code: `openModal` calls `disableScroll`
unconditionally, so `open(X); open(Y)` re-captures the snapshot — the
second open records the already-locked values (`prevBodyPosition` becomes
`some "fixed"`, overwriting the first open's `some ""`), and the eventual
`closeModal` "restores" `position: fixed; overflow: hidden; width: 100%`
instead of the empty pre-first-open styles, leaving the body locked. -/
theorem doubleOpen_overwrites_snapshot :
    (openModal defaultCfg 1 [] {} initialWorld).prevBodyPosition = some "" ∧
    (openModal defaultCfg 2 [] {}
      (openModal defaultCfg 1 [] {} initialWorld)).prevBodyPosition = some "fixed" ∧
    initialWorld.bodyPosition = "" ∧
    (closeModal (openModal defaultCfg 2 [] {}
      (openModal defaultCfg 1 [] {} initialWorld))).bodyPosition = "fixed" ∧
    (closeModal (openModal defaultCfg 2 [] {}
      (openModal defaultCfg 1 [] {} initialWorld))).bodyOverflow = "hidden" ∧
    (closeModal (openModal defaultCfg 2 [] {}
      (openModal defaultCfg 1 [] {} initialWorld))).bodyWidth = "100%" :=
  ⟨rfl, rfl, rfl, rfl, rfl, rfl⟩

/-- Claim C2 fails on the code: with a session active, the focus trap
enabled, and no focusable descendant (here one node with `tabIndex = -1`),
a Tab keydown computes `0 % 0 = NaN`, reads `tabbable[NaN] = undefined`,
and calls `undefined.focus()` — a thrown TypeError, not a no-op. -/
theorem tab_empty_focusable_throws :
    handleKeydown openWorld { key := "Tab", shiftKey := false }
      { nodes := [(Elem.node 7, -1)], activeElement := Elem.node 7 }
    = Except.error () := rfl

/-- Claim C3's counterexample: `changeModalContent` has no session guard —
called on a closed world it sets `Component`, so the modal appears. -/
theorem changeContent_no_session_displays :
    initialWorld.Component = none ∧
    (changeModalContent defaultCfg 7 [] {} initialWorld).Component.isSome = true :=
  ⟨rfl, rfl⟩

/-- Claim C3 amended: when no session exists, `changeModalContent` is not a
no-op — it replaces content and configuration exactly as it would during a
session (so the modal appears), while the scroll-lock snapshot, body
style, scroll position and loading flag are untouched, and no error is
raised. -/
theorem changeContent_unconditional (w : World) (d : Cfg) (c : Nat) (p : Obj)
    (o : CfgOpts) ( _h : w.Component = none) :
    (changeModalContent d c p o w).Component = some (c, p) ∧
    (changeModalContent d c p o w).state = mergeCfg d o ∧
    (changeModalContent d c p o w).scrollY = w.scrollY ∧
    (changeModalContent d c p o w).prevBodyPosition = w.prevBodyPosition ∧
    (changeModalContent d c p o w).prevBodyOverflow = w.prevBodyOverflow ∧
    (changeModalContent d c p o w).prevBodyWidth = w.prevBodyWidth ∧
    (changeModalContent d c p o w).bodyPosition = w.bodyPosition ∧
    (changeModalContent d c p o w).bodyTop = w.bodyTop ∧
    (changeModalContent d c p o w).bodyOverflow = w.bodyOverflow ∧
    (changeModalContent d c p o w).bodyWidth = w.bodyWidth ∧
    (changeModalContent d c p o w).windowScrollY = w.windowScrollY ∧
    (changeModalContent d c p o w).loading = w.loading := by
  simp [changeModalContent]

theorem changeContent_unconditional_witness :
    initialWorld.Component = none ∧
    (changeModalContent defaultCfg 3 [] {} initialWorld).Component = some (3, []) :=
  ⟨rfl, (changeContent_unconditional initialWorld defaultCfg 3 [] {} rfl).1⟩

/-- The stale outside-click scenario: pointer-down on the background
remembers it; pointer-up elsewhere (a content node) is evaluated without
closing — and without clearing the remembered target. -/
def staleDownWorld : World := handleOuterMousedown openWorld Elem.background

/-- The pointer-up on a content node evaluated after `staleDownWorld`. -/
def staleUp1 : UpResult := handleOuterMouseup staleDownWorld (Elem.node 99)

/-- A later pointer-up on the background with no fresh preceding
pointer-down, evaluated after `staleUp1`. -/
def staleUp2 : UpResult := handleOuterMouseup staleUp1.world Elem.background

/-- Claim C5's counterexample: after the first pointer-up is evaluated the
pending target still holds the background (it is not cleared), the modal
is still open — and a second pointer-up with no fresh preceding
pointer-down matches the stale target and closes the modal. -/
theorem stale_outer_target_closes :
    staleUp1.world.outerClickTarget = some Elem.background ∧
    staleUp1.world.Component.isSome = true ∧
    staleUp2.world.Component = none :=
  ⟨rfl, rfl, rfl⟩

/-- Claim C5 amended: the pending target is set on pointer-down on the
background/wrapper region but is never cleared when pointer-up is
evaluated; consequently any pointer-up whose target equals the remembered
target — fresh or stale — prevents default and closes the session when
outside-click dismissal is enabled. -/
theorem outerMouseup_keeps_target (w : World) (t : Elem) :
    (handleOuterMouseup w t).world.outerClickTarget = w.outerClickTarget ∧
    (w.state.closeOnOuterClick = true → w.outerClickTarget = some t →
      (handleOuterMouseup w t).world.Component = none ∧
      (handleOuterMouseup w t).prevented = true) := by
  constructor
  · unfold handleOuterMouseup
    split
    · show (closeModal w).outerClickTarget = w.outerClickTarget
      unfold closeModal
      cases h : w.Component <;> simp [h, enableScroll]
    · rfl
  · intro h1 h2
    unfold handleOuterMouseup
    rw [if_pos ⟨h1, h2.symm⟩]
    exact ⟨closeModal_Component w, rfl⟩

theorem outerMouseup_keeps_target_witness :
    (handleOuterMouseup staleDownWorld Elem.background).world.outerClickTarget
      = staleDownWorld.outerClickTarget ∧
    (handleOuterMouseup staleDownWorld Elem.background).world.Component = none :=
  ⟨(outerMouseup_keeps_target staleDownWorld Elem.background).1,
   ((outerMouseup_keeps_target staleDownWorld Elem.background).2 rfl rfl).1⟩

/-- Claim C6's counterexample: `isLoading` has no session guard and
`openModal` never resets `loading`, so a `setLoading(true)` issued while
closed changes state, and the next session starts with the leftover flag. -/
theorem setLoading_no_session_leaks :
    initialWorld.Component = none ∧
    initialWorld.loading = false ∧
    (isLoading initialWorld true).loading = true ∧
    (openModal defaultCfg 1 [] {} (isLoading initialWorld true)).loading = true :=
  ⟨rfl, rfl, rfl, rfl⟩

/-- Claim C6 amended: `isLoading` sets the `loading` flag unconditionally,
whether or not a session is active; it creates no session and touches
nothing else, but the flag persists, so a session opened afterwards starts
with the value of the last `setLoading` call. -/
theorem isLoading_unconditional (w : World) (v : Bool) (d : Cfg) (c : Nat)
    (p : Obj) (o : CfgOpts) :
    (isLoading w v).loading = v ∧
    (isLoading w v).Component = w.Component ∧
    (isLoading w v).state = w.state ∧
    (isLoading w v).bodyPosition = w.bodyPosition ∧
    (isLoading w v).windowScrollY = w.windowScrollY ∧
    (openModal d c p o (isLoading w v)).loading = v := by
  simp [isLoading, openModal, disableScroll]

/-- Claim C9: an Escape keydown closes the session exactly when
`state.closeOnEsc` is set and a session is active (then it prevents
default and runs `closeModal`, leaving no session); with `closeOnEsc`
disabled the world is returned unchanged, and with no session active the
world is returned unchanged. -/
theorem escape_closes_iff (w : World) (dom : DomView) (sh : Bool) :
    (w.state.closeOnEsc = true → w.Component.isSome = true →
      handleKeydown w { key := "Escape", shiftKey := sh } dom =
        Except.ok { world := closeModal w, focused := none, prevented := true } ∧
      (closeModal w).Component = none) ∧
    (w.state.closeOnEsc = false →
      handleKeydown w { key := "Escape", shiftKey := sh } dom =
        Except.ok { world := w, focused := none, prevented := false }) ∧
    (w.Component = none →
      handleKeydown w { key := "Escape", shiftKey := sh } dom =
        Except.ok { world := w, focused := none, prevented := false }) := by
  have hne : (("Escape" : String) = "Tab") = False := eq_false (by decide)
  refine ⟨fun h1 h2 => ?_, fun h1 => ?_, fun h1 => ?_⟩
  · constructor
    · simp only [handleKeydown, h1, h2, hne]
      simp [closeModal_Component]
    · exact closeModal_Component w
  · simp only [handleKeydown, h1, hne]
    simp
  · simp only [handleKeydown, h1, hne]
    simp

theorem escape_closes_iff_witness :
    handleKeydown openWorld { key := "Escape", shiftKey := false }
      { nodes := [], activeElement := Elem.node 0 } =
      Except.ok { world := closeModal openWorld, focused := none, prevented := true } ∧
    (closeModal openWorld).Component = none :=
  (escape_closes_iff openWorld { nodes := [], activeElement := Elem.node 0 } false).1
    rfl rfl

/-- Claim C7: the session configuration `{ ...defaultState, ...options }`
equals the defaults with exactly the supplied keys replaced — an absent
key keeps its default value (no key loss), and a supplied key takes the
supplied value. -/
theorem mergeState_overrides (p : HostProps) (options : Obj) (k : String) :
    (getProp options k = none →
      getProp (mergeState p options) k = getProp (defaultState p) k) ∧
    (∀ v, getProp options k = some v →
      getProp (mergeState p options) k = some v) := by
  have h := getProp_spread (defaultState p) options k
  constructor
  · intro hn
    rw [mergeState, h, hn]
    rfl
  · intro v hv
    rw [mergeState, h, hv]
    rfl

theorem mergeState_overrides_witness :
    getProp (mergeState {} [("closeOnEsc", .bool false)]) "closeOnEsc"
      = some (.bool false) ∧
    getProp (mergeState {} [("closeOnEsc", .bool false)]) "closeOnOuterClick"
      = getProp (defaultState {}) "closeOnOuterClick" :=
  ⟨(mergeState_overrides {} [("closeOnEsc", .bool false)] "closeOnEsc").2 _ rfl,
   (mergeState_overrides {} [("closeOnEsc", .bool false)] "closeOnOuterClick").1 rfl⟩

/-- Claim C10: the component returned by `bind(C, p)` instantiates `C`, and
the props it passes are the merge of `p` and `options.props`, with keys of
`options.props` winning on collision (an absent `options.props` behaves as
the empty mapping, and `bind`'s `props` parameter itself defaults to the
empty mapping). -/
theorem bind_merges_props (C : Nat) (p : Obj) (o : Obj) (k : String) :
    (bind C p o).comp = C ∧
    getProp (instanceProps (bind C p o)) k
      = orProp (getProp (asSpreadObj (getProp o "props")) k) (getProp p k) := by
  constructor
  · rfl
  · show getProp (asSpreadObj (getProp
      (spread o [("props", .obj (spread p (asSpreadObj (getProp o "props"))))])
      "props")) k = _
    rw [getProp_spread_single]
    exact getProp_spread _ _ _

theorem jsIndexOf_get (l : List Elem) (i : Nat) (hi : i < l.length)
    (hnd : l.Nodup) : jsIndexOf l (l.get ⟨i, hi⟩) = (i : Int) := by
  induction l generalizing i with
  | nil => simp at hi
  | cons a rest ih =>
    cases i with
    | zero => simp [jsIndexOf]
    | succ j =>
      have hj : j < rest.length := Nat.lt_of_succ_lt_succ hi
      have hget : (a :: rest).get ⟨j + 1, hi⟩ = rest.get ⟨j, hj⟩ := rfl
      have hne : ¬ a = rest.get ⟨j, hj⟩ := by
        intro hEq
        exact (List.nodup_cons.mp hnd).1 (hEq ▸ List.get_mem rest j hj)
      have hr := ih j hj (List.nodup_cons.mp hnd).2
      rw [hget]
      simp only [jsIndexOf, if_neg hne, hr]
      have hj1 : ¬ ((j : Int) = -1) := by omega
      rw [if_neg hj1]
      push_cast
      ring

/-- Cyclic wrap of an integer index over `n` positions (mathematical
modulus; total on `n = 0` but only used with `0 < n`). -/
def wrapIndex (a : Int) (n : Nat) : Nat := (a % (n : Int)).toNat

theorem wrapIndex_lt (a : Int) (n : Nat) (hn : 0 < n) : wrapIndex a n < n := by
  have hnz : (n : Int) ≠ 0 := by exact_mod_cast hn.ne'
  have h1 : 0 ≤ a % (n : Int) := Int.emod_nonneg a hnz
  have h2 : a % (n : Int) < (n : Int) := Int.emod_lt_of_pos a (by exact_mod_cast hn)
  unfold wrapIndex
  omega

theorem focusStep (l : List Elem) (i : Nat) (sh : Bool) (hi : i < l.length) :
    jsGet l (jsMod
      ((if (i : Int) = -1 ∧ sh then 0 else (i : Int))
        + l.length + (if sh then -1 else 1)) l.length)
      = l.get? (wrapIndex ((i : Int) + (if sh then -1 else 1)) l.length) := by
  have hn : 0 < l.length := Nat.lt_of_le_of_lt (Nat.zero_le i) hi
  have hnz : (l.length : Int) ≠ 0 := by exact_mod_cast hn.ne'
  have h0 : ¬((i : Int) = -1 ∧ sh = true) := by
    rintro ⟨h, -⟩
    omega
  rw [if_neg h0]
  set c : Int := if sh then -1 else 1 with hc
  have hcases : c = -1 ∨ c = 1 := by
    rw [hc]; cases sh <;> simp
  have hd : 0 ≤ (i : Int) + l.length + c := by
    rcases hcases with h | h <;> omega
  simp only [jsMod, if_neg hnz]
  rw [Int.tmod_eq_emod hd (by exact_mod_cast Nat.zero_le l.length)]
  have hrw : ((i : Int) + l.length + c) % (l.length : Int)
      = ((i : Int) + c) % (l.length : Int) := by
    calc ((i : Int) + l.length + c) % (l.length : Int)
        = (((i : Int) + c) + (l.length : Int) * 1) % (l.length : Int) := by ring_nf
      _ = ((i : Int) + c) % (l.length : Int) :=
          Int.add_mul_emod_self_left ((i : Int) + c) (l.length : Int) 1
  rw [hrw]
  have hE0 : 0 ≤ ((i : Int) + c) % (l.length : Int) := Int.emod_nonneg _ hnz
  have hElt : ((i : Int) + c) % (l.length : Int) < (l.length : Int) :=
    Int.emod_lt_of_pos _ (by exact_mod_cast hn)
  have hEn : (((i : Int) + c) % (l.length : Int)).toNat < l.length := by omega
  simp only [jsGet, wrapIndex]
  rw [dif_pos ⟨hE0, hEn⟩, List.get?_eq_get hEn]

/-- Claim C8: with a session active, the focus trap enabled, and a
non-empty focusable set in which the active element sits at index `i`, a
Tab keydown moves focus to index `(i + 1) mod n` and Shift+Tab to
`(i - 1) mod n` (wrapping cyclically over the size `n` of the focusable
set), and the browser default is prevented; the session is unchanged. -/
theorem tab_cycles (w : World) (dom : DomView) (sh : Bool) (i : Nat)
    (hC : w.Component.isSome = true)
    (hT : w.state.disableFocusTrap = false)
    (hnd : (tabbableOf dom.nodes).Nodup)
    (hi : i < (tabbableOf dom.nodes).length)
    (hA : dom.activeElement = (tabbableOf dom.nodes).get ⟨i, hi⟩) :
    handleKeydown w { key := "Tab", shiftKey := sh } dom =
      Except.ok
        { world := w
        , focused := (tabbableOf dom.nodes).get?
            (wrapIndex ((i : Int) + (if sh then -1 else 1))
              (tabbableOf dom.nodes).length)
        , prevented := true } := by
  have hne : (("Tab" : String) = "Escape") = False := eq_false (by decide)
  have hn : 0 < (tabbableOf dom.nodes).length :=
    Nat.lt_of_le_of_lt (Nat.zero_le i) hi
  have hidx : jsIndexOf (tabbableOf dom.nodes) dom.activeElement = (i : Int) := by
    rw [hA]; exact jsIndexOf_get _ i hi hnd
  have hwlt := wrapIndex_lt ((i : Int) + (if sh then -1 else 1))
    (tabbableOf dom.nodes).length hn
  have hsome := List.get?_eq_get hwlt
  have hfs := focusStep (tabbableOf dom.nodes) i sh hi
  simp only [handleKeydown, hne, hC, hT, and_false, if_false, hidx,
    Bool.not_eq_true, Bool.false_eq_true, not_false_eq_true, and_true,
    true_and, if_true, hfs, hsome]

theorem tab_cycles_witness :
    handleKeydown openWorld { key := "Tab", shiftKey := false }
      { nodes := [(Elem.node 1, 0), (Elem.node 2, 0), (Elem.node 3, 1)]
      , activeElement := Elem.node 3 }
    = Except.ok { world := openWorld, focused := some (Elem.node 1)
                , prevented := true } := by
  have h := tab_cycles openWorld
    { nodes := [(Elem.node 1, 0), (Elem.node 2, 0), (Elem.node 3, 1)]
    , activeElement := Elem.node 3 }
    false 2 rfl rfl (by decide) (by decide) rfl
  rw [h]
  rfl
